import Mathlib

/-!
Verification development for the tw_trademarket_info catalog / storage /
dispatch core.

The Python source (src/registry/catalog.py, src/registry/storage.py,
src/sources/dispatcher.py, src/app.py) is shallowly embedded below:

* JSON-like Python values are modelled by `Value`; Python `dict`s keyed by
  strings become association lists (`PyDict`) whose operations mirror
  CPython semantics (insertion order, in-place overwrite on update,
  append on new key, `setdefault` appends only when the key is absent).
* Python truthiness (`if x:`) is modelled by `truthy`.
* `str.replace` is modelled by a left-to-right, non-overlapping scan
  (`replaceGo` / `pyReplace`), `in` on strings by `strContains`.
* Fallible code (`raise`) is modelled by `Except` / explicit error values.

All definitions follow the source line by line; parameter values appearing
in the claims are JSON/CLI scalars, so `pyRepr` of containers (only used by
`str()` on non-scalar parameter values, which never occurs in the catalog)
models Python `repr` without the escaping of quotes inside strings.
-/

namespace TwMarket

/-- Model of the Python / JSON values flowing through the program. -/
inductive Value where
  | str (s : String)
  | num (n : Int)
  | boolean (b : Bool)
  | null
  | dict (items : List (String × Value))
  | list (items : List Value)
deriving Repr

/-- A Python `dict` with string keys, kept in insertion order. -/
abbrev PyDict := List (String × Value)

/-- CPython truthiness for the modelled values (`if x:`). -/
def truthy : Value → Bool
  | .str s => !s.isEmpty
  | .num n => n != 0
  | .boolean b => b
  | .null => false
  | .dict d => !d.isEmpty
  | .list l => !l.isEmpty

mutual

/-- Python `repr` for modelled values (strings shown in quotes). -/
def pyRepr : Value → String
  | .str s => "\x27" ++ s ++ "\x27"
  | .num n => toString n
  | .boolean b => if b then "True" else "False"
  | .null => "None"
  | .list l => "[" ++ ", ".intercalate (pyReprElems l) ++ "]"
  | .dict d => "\x7b" ++ ", ".intercalate (pyReprFields d) ++ "\x7d"

def pyReprElems : List Value → List String
  | [] => []
  | v :: rest => pyRepr v :: pyReprElems rest

def pyReprFields : List (String × Value) → List String
  | [] => []
  | (k, v) :: rest => ("\x27" ++ k ++ "\x27: " ++ pyRepr v) :: pyReprFields rest

end

/-- Python `str()` of a value (identity on strings, `repr`-like otherwise). -/
def pyStr : Value → String
  | .str s => s
  | v => pyRepr v

/-- `d[k] = v` on a Python dict: overwrite in place, else append. -/
def dictSet (d : PyDict) (k : String) (v : Value) : PyDict :=
  if (d.lookup k).isSome then
    d.map (fun kv => if kv.1 = k then (k, v) else kv)
  else
    d ++ [(k, v)]

/-- `d.update(e)` / `{**d, **e}` on Python dicts. -/
def dictUpdate (d e : PyDict) : PyDict :=
  e.foldl (fun acc kv => dictSet acc kv.1 kv.2) d

/-- `d.setdefault(k, v)`: insert `v` under `k` only when `k` is absent. -/
def setdefault (d : PyDict) (k : String) (v : Value) : PyDict :=
  if (d.lookup k).isSome then d else d ++ [(k, v)]

/-! ### Python string helpers (`in`, `str.replace`) -/

/-- Does `pat` occur as a contiguous run inside `s`? -/
def listContains (pat : List Char) : List Char → Bool
  | [] => pat.isEmpty
  | c :: rest => pat.isPrefixOf (c :: rest) || listContains pat rest

/-- `pat in s` on Python strings. -/
def strContains (s pat : String) : Bool :=
  listContains pat.data s.data

/-- `s.split(c)` for a one-character separator (every `split` in the
source uses a one-character separator): same semantics as CPython,
including empty parts around consecutive separators. -/
def splitChar (c : Char) : List Char → List (List Char)
  | [] => [[]]
  | x :: rest =>
      match splitChar c rest with
      | [] => [[]]
      | cur :: parts =>
          if x = c then [] :: cur :: parts else (x :: cur) :: parts

/-- `s.split(c)` lifted to `String`. -/
def strSplitChar (c : Char) (s : String) : List String :=
  (splitChar c s.data).map String.mk

/-- `s.strip()`: drop leading and trailing whitespace. -/
def pyStrip (s : String) : String :=
  ⟨((s.data.dropWhile Char.isWhitespace).reverse.dropWhile Char.isWhitespace).reverse⟩

/-- `s.lower()` for the ASCII strings handled here (MIME types). -/
def asciiLower (s : String) : String :=
  ⟨s.data.map (fun c =>
    if 'A' ≤ c ∧ c ≤ 'Z' then Char.ofNat (c.toNat + 32) else c)⟩

/-- `s.upper()` for the ASCII strings handled here (HTTP methods). -/
def asciiUpper (s : String) : String :=
  ⟨s.data.map (fun c =>
    if 'a' ≤ c ∧ c ≤ 'z' then Char.ofNat (c.toNat - 32) else c)⟩

/-- Parse a non-empty all-digit string as a natural number (the digit
fields of `strptime`). -/
def digitsToNat? (s : String) : Option Nat :=
  if !s.data.isEmpty && s.data.all Char.isDigit then
    some (s.data.foldl (fun n c => n * 10 + (c.toNat - 48)) 0)
  else
    none

/-- One fuelled pass of CPython `str.replace`: scan left to right, replace
non-overlapping occurrences of `pat`.  The fuel is an upper bound on the
number of characters consumed; `replaceList` supplies `s.length`. -/
def replaceGo (pat sub : List Char) : Nat → List Char → List Char
  | 0, s => s
  | _ + 1, [] => []
  | fuel + 1, c :: rest =>
      if pat.isPrefixOf (c :: rest) then
        sub ++ replaceGo pat sub fuel ((c :: rest).drop pat.length)
      else
        c :: replaceGo pat sub fuel rest

/-- CPython `s.replace(pat, sub)` restricted to non-empty patterns (every
pattern the source builds is `"{" ++ key ++ "}"`, never empty). -/
def replaceList (pat sub s : List Char) : List Char :=
  if pat.isEmpty then s else replaceGo pat sub s.length s

/-- `s.replace(pat, sub)` lifted to `String`. -/
def pyReplace (s pat sub : String) : String :=
  ⟨replaceList pat.data sub.data s.data⟩

/-! ### Template substitution (src/registry/catalog.py, `substitute` /
`_apply_template`) -/

/-- `placeholder = f"{{{key}}}"`, as built in the loop of `substitute` and
by `_placeholder` in src/registry/storage.py. -/
def placeholderOf (key : String) : String :=
  "\x7b" ++ key ++ "\x7d"

/-- The body of the `for key, param_value in params.items()` loop of
`substitute`: replace every occurrence of `{key}` by `str(param_value)`
when the placeholder occurs in the current result. -/
def substOne (result : String) (kv : String × Value) : String :=
  if strContains result (placeholderOf kv.1) then
    pyReplace result (placeholderOf kv.1) (pyStr kv.2)
  else
    result

/-- `substitute(value, params)` from src/registry/catalog.py lines 169-179:
a string that is itself a parameter key is replaced by the raw parameter
value; otherwise each placeholder `{k}` with `k` in `params` is replaced by
`str(params[k])`; non-strings pass through. -/
def substitute (v : Value) (params : PyDict) : Value :=
  match v with
  | .str s =>
      match params.lookup s with
      | some pv => pv
      | none => .str (params.foldl substOne s)
  | v => v

mutual

/-- `_apply_template(value, params)` from src/registry/catalog.py lines
182-187: recurse into dicts and lists, `substitute` on leaves. -/
def applyTemplate (v : Value) (params : PyDict) : Value :=
  match v with
  | .dict items => .dict (applyTemplateFields items params)
  | .list items => .list (applyTemplateElems items params)
  | v => substitute v params

def applyTemplateFields (items : List (String × Value)) (params : PyDict) :
    List (String × Value) :=
  match items with
  | [] => []
  | (k, v) :: rest => (k, applyTemplate v params) :: applyTemplateFields rest params

def applyTemplateElems (items : List Value) (params : PyDict) : List Value :=
  match items with
  | [] => []
  | v :: rest => applyTemplate v params :: applyTemplateElems rest params

end

/-! ### Defaults merger (src/registry/catalog.py, `_merge_dicts`) -/

/-- Truthiness of an optional mapping (`if not base:` in `_merge_dicts`):
`None` and the empty dict are both falsy. -/
def falsyOptDict (o : Option PyDict) : Bool :=
  match o with
  | none => true
  | some d => d.isEmpty

/-- `_merge_dicts(base, overrides)` from src/registry/catalog.py lines
190-201: returns `None` when both arguments are falsy, otherwise the shallow
merge with override keys winning. -/
def mergeDicts (base overrides : Option PyDict) : Option PyDict :=
  if falsyOptDict base && falsyOptDict overrides then
    none
  else
    let merged : PyDict := []
    let merged := if !falsyOptDict base then dictUpdate merged (base.getD []) else merged
    let merged := if !falsyOptDict overrides then dictUpdate merged (overrides.getD []) else merged
    some merged

/-! ### Response parser selection (src/registry/catalog.py,
`_parser_from_response` and the `parser = ...` line of `expand`) -/

/-- The chain of MIME-set membership tests in the loop body of
`_parser_from_response` (each `if mime in {...}: return ...`). -/
def mimeParser (mime : String) : Option String :=
  if mime = "application/json" ∨ mime = "text/json" ∨ mime = "application/vnd.api+json" then
    some "json"
  else if mime = "text/csv" ∨ mime = "application/csv" ∨ mime = "application/vnd.ms-excel" then
    some "csv"
  else if mime = "application/rss+xml" ∨ mime = "application/xml" ∨ mime = "text/xml" then
    some "rss"
  else if mime = "text/html" ∨ mime = "application/xhtml+xml" then
    some "html"
  else
    none

/-- The `for candidate in normalized.split("|")` loop: take the part before
the first `;`, strip and lower-case it, skip empty candidates, return the
first recognized MIME's parser, and fall back to `"json"`. -/
def scanCandidates : List String → String
  | [] => "json"
  | cand :: rest =>
      let mime := asciiLower (pyStrip ((strSplitChar ';' cand).headD ""))
      if mime.isEmpty then scanCandidates rest
      else
        match mimeParser mime with
        | some p => p
        | none => scanCandidates rest

/-- `_parser_from_response(response_meta)` from src/registry/catalog.py
lines 204-223.  The source only ever receives a mapping or `None` here
(`self.raw.get("response")`), so the argument is an optional dict. -/
def parserFromResponse (responseMeta : Option PyDict) : String :=
  match responseMeta with
  | none => "json"
  | some d =>
      if d.isEmpty then "json"
      else
        match d.lookup "content_type" with
        | none => "json"
        | some ct =>
            if !truthy ct then "json"
            else scanCandidates (strSplitChar '|' (pyStr ct))

/-- View an optional raw field as the optional mapping
`_parser_from_response` receives (absent field or JSON `null` → `None`). -/
def rawResponseDict (v : Option Value) : Option PyDict :=
  match v with
  | some (.dict d) => some d
  | _ => none

/-- `self.raw.get("parser") or _parser_from_response(self.raw.get("response"))`
from src/registry/catalog.py line 84: a truthy explicit `parser` field wins,
otherwise infer from the declared response metadata. -/
def selectParser (raw : PyDict) : Value :=
  let p := (raw.lookup "parser").getD .null
  if truthy p then p
  else .str (parserFromResponse (rawResponseDict (raw.lookup "response")))

/-! ### Storage planner (src/registry/storage.py) -/

/-- `StoragePlan` from src/registry/storage.py lines 22-33. -/
structure StoragePlan where
  scope : String
  dataset : String
  instrument_type : Option String := none
  parameter_key : Option String := none
  derivative_key : Option String := none
  frequency : Option String := none
  timezone : Option String := none
  notes : Option String := none
deriving Repr, DecidableEq

/-- Truthiness of an `Optional[str]` field (`if self.derivative_key:`). -/
def strOptTruthy (o : Option String) : Bool :=
  match o with
  | none => false
  | some s => !s.isEmpty

/-- A filesystem path is modelled as its list of (non-empty) segments;
`Path(s)` splits on `/` and drops empty parts, as `pathlib` does for
relative paths. -/
def pathSegsOf (s : String) : List String :=
  (strSplitChar '/' s).filter (fun seg => !seg.isEmpty)

/-- `path /= segment` (pathlib `/` splits multi-segment strings too). -/
def pathDiv (p : List String) : String → List String :=
  fun seg => p ++ pathSegsOf seg

/-- `_as_path(base, *segments)` from src/registry/storage.py lines 9-15 as
the source uses it (first argument always an already-built path): skip
falsy (empty) string segments, `/=` the rest onto the path. -/
def asPathFrom (base : List String) (segments : List String) : List String :=
  segments.foldl (fun path seg => if seg.isEmpty then path else pathDiv path seg) base

/-- `str(path)` for the segment-list model of a relative `pathlib` path
(`str(Path())` is `"."`). -/
def joinPath : List String → String
  | [] => "."
  | [s] => s
  | s :: rest => s ++ "/" ++ joinPath rest

/-- `value is None` on a modelled Python value. -/
def isNull : Value → Bool
  | .null => true
  | _ => false

/-- `StoragePlan._segment(key, placeholder, params)` from
src/registry/storage.py lines 104-119.  A parameter that is present but
bound to `None` is treated exactly like an absent parameter. -/
def StoragePlan.segment (key : Option String) (placeholder : Bool)
    (params : Option PyDict) : Option String :=
  match key with
  | none => if placeholder then some (placeholderOf "symbol") else none
  | some k =>
      if placeholder then some (placeholderOf k)
      else
        match params with
        | none => none
        | some ps =>
            match ps.lookup k with
            | none => none
            | some v => if isNull v then none else some (pyStr v)

/-- `StoragePlan._build_path(source_id, placeholder, params)` from
src/registry/storage.py lines 72-102. -/
def StoragePlan.buildPath (plan : StoragePlan) (source_id : String)
    (placeholder : Bool) (params : Option PyDict) : Option (List String) :=
  let dataset_segments := (strSplitChar '/' plan.dataset).filter (fun seg => !seg.isEmpty)
  let base := pathSegsOf source_id
  let scopedBase : Option (List String) :=
    if plan.scope = "instrument" then
      match StoragePlan.segment plan.parameter_key placeholder params with
      | none => none
      | some symbol_segment =>
          if strOptTruthy plan.derivative_key then
            match StoragePlan.segment plan.derivative_key placeholder params with
            | none => none
            | some underlying_segment =>
                some (asPathFrom base [underlying_segment, "derivatives",
                  (match plan.instrument_type with
                   | some it => if it.isEmpty then "derivative" else it
                   | none => "derivative"),
                  symbol_segment])
          else
            some (asPathFrom base [symbol_segment, "spot"])
    else if plan.scope = "market" then
      some (asPathFrom base ["market"])
    else if plan.scope = "source" then
      some base
    else
      some (asPathFrom base [plan.scope])
  match scopedBase with
  | none => none
  | some p => some (dataset_segments.foldl pathDiv p)

/-- `StoragePlan.template(source_id)` from src/registry/storage.py lines
35-38 (`placeholder=True`; `str()` of the built path). -/
def StoragePlan.template (plan : StoragePlan) (source_id : String) : String :=
  match plan.buildPath source_id true none with
  | some p => joinPath p
  | none => "None"

/-- `StoragePlan.resolve(source_id, params)` from src/registry/storage.py
lines 40-43. -/
def StoragePlan.resolve (plan : StoragePlan) (source_id : String)
    (params : PyDict) : Option String :=
  match plan.buildPath source_id false (some params) with
  | some p => some (joinPath p)
  | none => none

/-- Lift an optional string field into a serialisable value. -/
def optStr : Option String → Value
  | some s => .str s
  | none => .null

/-- `StoragePlan.render(source_id, params)` from src/registry/storage.py
lines 45-67. -/
def StoragePlan.render (plan : StoragePlan) (source_id : String)
    (params : PyDict) : PyDict :=
  let group :=
    if strOptTruthy plan.derivative_key then "derivatives"
    else if plan.scope = "market" then "market"
    else if plan.scope = "source" then "source"
    else "spot"
  [("scope", .str plan.scope),
   ("dataset", .str plan.dataset),
   ("group", .str group),
   ("instrument_type", optStr plan.instrument_type),
   ("frequency", optStr plan.frequency),
   ("timezone", optStr plan.timezone),
   ("template", .str (plan.template source_id)),
   ("path", match plan.resolve source_id params with
            | some p => .str p
            | none => .null),
   ("parameter_key", optStr plan.parameter_key),
   ("derivative_key", optStr plan.derivative_key),
   ("notes", optStr plan.notes)]

/-- `DEFAULT_STORAGE_MAP` from src/registry/storage.py lines 122-205
(the free-text `notes` values are kept abstract as `some` markers where the
source has Chinese prose; only their presence matters to the program). -/
def DEFAULT_STORAGE_MAP : List (String × StoragePlan) :=
  [("twse.exchangeReport.STOCK_DAY",
    { scope := "instrument", dataset := "ohlcv/daily",
      instrument_type := some "equity", parameter_key := some "stock_code",
      frequency := some "1d", timezone := some "Asia/Taipei",
      notes := some "stock-day-note" }),
   ("twse.exchangeReport.STOCK_DAY_ALL",
    { scope := "market", dataset := "equities/ohlcv/daily/full",
      frequency := some "1d", timezone := some "Asia/Taipei" }),
   ("twse.exchangeReport.BWIBBU_ALL",
    { scope := "market", dataset := "equities/valuation/daily",
      frequency := some "1d", timezone := some "Asia/Taipei" }),
   ("twse.exchangeReport.MI_INDEX",
    { scope := "market", dataset := "market/index/daily",
      frequency := some "1d", timezone := some "Asia/Taipei" }),
   ("twse.exchangeReport.MI_MARGN",
    { scope := "market", dataset := "credit/margin/daily",
      frequency := some "1d", timezone := some "Asia/Taipei" }),
   ("twse.fund.T86_legacy",
    { scope := "market", dataset := "investors/top3/daily",
      frequency := some "1d", timezone := some "Asia/Taipei",
      notes := some "t86-note" }),
   ("tpex.stock.daily_close_csv_legacy",
    { scope := "instrument", dataset := "ohlcv/daily",
      instrument_type := some "equity", parameter_key := some "stock_code",
      frequency := some "1d", timezone := some "Asia/Taipei" }),
   ("taifex.openapi.samples.daily_report",
    { scope := "market", dataset := "derivatives/summary/daily",
      frequency := some "1d", timezone := some "Asia/Taipei" }),
   ("taifex.download.prev30_ticks_notice",
    { scope := "market", dataset := "derivatives/ticks/landing",
      timezone := some "Asia/Taipei", notes := some "taifex-note" }),
   ("mops.rss.material_information",
    { scope := "source", dataset := "disclosures/rss/material-information",
      timezone := some "Asia/Taipei" }),
   ("mops.rss.shareholders_meetings",
    { scope := "source", dataset := "disclosures/rss/shareholders-meetings",
      timezone := some "Asia/Taipei" }),
   ("mops.rss.ex_rights_dividends",
    { scope := "source", dataset := "disclosures/rss/ex-rights-dividends",
      timezone := some "Asia/Taipei" }),
   ("mops.web.t05st01",
    { scope := "instrument", dataset := "disclosures/material/html",
      parameter_key := some "stock_code", timezone := some "Asia/Taipei",
      notes := some "t05st01-note" })]

/-! ### Date enricher (src/sources/dispatcher.py, `enrich_params` /
`_coerce_date`) -/

/-- The date part of a CPython `datetime` (the time part is always
midnight for `strptime` of a date-only format and is never read). -/
structure PyDatetime where
  year : Nat
  month : Nat
  day : Nat
deriving Repr, DecidableEq

/-- Gregorian leap year, as `datetime` validates it. -/
def isLeapYear (y : Nat) : Bool :=
  y % 4 = 0 && (y % 100 != 0 || y % 400 = 0)

/-- Days in a month, as `datetime` validates day-of-month. -/
def daysInMonth (y m : Nat) : Nat :=
  if m = 2 then (if isLeapYear y then 29 else 28)
  else if m = 4 ∨ m = 6 ∨ m = 9 ∨ m = 11 then 30
  else 31

/-- The `datetime(year, month, day)` constructor's validation. -/
def mkDatetime (y m d : Nat) : Option PyDatetime :=
  if 1 ≤ y ∧ y ≤ 9999 ∧ 1 ≤ m ∧ m ≤ 12 ∧ 1 ≤ d ∧ d ≤ daysInMonth y m then
    some { year := y, month := m, day := d }
  else
    none

/-- `strptime` `%Y` field: exactly four digits. -/
def parseYear4 (s : String) : Option Nat :=
  if s.length = 4 then digitsToNat? s else none

/-- `strptime` `%m` / `%d` field: one or two digits (a bound on the value
is applied by `mkDatetime`). -/
def parseTwoDigit (s : String) : Option Nat :=
  if 1 ≤ s.length ∧ s.length ≤ 2 then digitsToNat? s else none

/-- `datetime.strptime(value, "%Y-%m-%d")` / `"%Y/%m/%d"` on a value split
at the literal separator. -/
def parseSeparated (sep : Char) (s : String) : Option PyDatetime :=
  match strSplitChar sep s with
  | [ys, ms, ds] =>
      match parseYear4 ys, parseTwoDigit ms, parseTwoDigit ds with
      | some y, some m, some d => mkDatetime y m d
      | _, _, _ => none
  | _ => none

/-- `datetime.strptime(value, "%Y%m%d")` (for the eight-digit strings this
format is meant for; `%Y` consumes four digits, `%m` and `%d` two each). -/
def parseCompact (s : String) : Option PyDatetime :=
  if s.length = 8 ∧ s.data.all Char.isDigit then
    match digitsToNat? (s.take 4), digitsToNat? ((s.drop 4).take 2),
        digitsToNat? (s.drop 6) with
    | some y, some m, some d => mkDatetime y m d
    | _, _, _ => none
  else
    none

/-- `_coerce_date(value)` from src/sources/dispatcher.py lines 46-55: try
the formats of `DATE_FORMATS` in order on strings, `None` otherwise.
(Parameter values in this system come from CLI/JSON scalars, so the
`isinstance(value, datetime)` branch is never reached and is not
modelled.) -/
def coerceDate : Value → Option PyDatetime
  | .str s =>
      (parseSeparated '-' s).orElse fun _ =>
        (parseSeparated '/' s).orElse fun _ => parseCompact s
  | _ => none

/-- Zero-pad a number to a minimum width (`%02d` / `%03d` / `%m` / `%d`). -/
def padNum (width n : Nat) : String :=
  let s := toString n
  if s.length < width then String.mk (List.replicate (width - s.length) '0') ++ s
  else s

/-- The `(key, value)` pairs passed to the `enriched.setdefault` chain of
`enrich_params` (src/sources/dispatcher.py lines 27-42), in source order;
the ROC block is guarded by `roc_year > 0`. -/
def derivedPairs (dt : PyDatetime) : List (String × Value) :=
  let yyyy := toString dt.year
  let mm := padNum 2 dt.month
  let dd := padNum 2 dt.day
  [("YYYYMMDD", .str (yyyy ++ mm ++ dd)),
   ("YYYYMM", .str (yyyy ++ mm)),
   ("YYYY", .str yyyy),
   ("MM", .str mm),
   ("DD", .str dd),
   ("YYYY/MM/DD", .str (yyyy ++ "/" ++ mm ++ "/" ++ dd))]
  ++
  (if 1911 < dt.year then
    let roc := padNum 3 (dt.year - 1911)
    let roc2 := padNum 2 (dt.year - 1911)
    [("ROC_YEAR", .str roc),
     ("ROC_YY", .str roc2),
     ("YYY", .str roc),
     ("YY", .str roc2),
     ("YYYMM", .str (roc ++ mm)),
     ("YYY/MM", .str (roc ++ "/" ++ mm)),
     ("YYYMMDD", .str (roc ++ mm ++ dd)),
     ("YYY/MM/DD", .str (roc ++ "/" ++ mm ++ "/" ++ dd))]
  else [])

/-- Fold a list of pairs through `setdefault`, as the chain of
`enriched.setdefault(...)` calls does. -/
def applyDefaults (d : PyDict) : List (String × Value) → PyDict
  | [] => d
  | (k, v) :: rest => applyDefaults (setdefault d k v) rest

/-- The two dict objects live in `enrich_params`: the caller's `params`
and the fresh `enriched = dict(params)`.  Mutation is made explicit: every
`setdefault` in the source targets the `enriched` object only. -/
structure EnrichHeap where
  params : PyDict
  enriched : PyDict

/-- `enrich_params(params)` from src/sources/dispatcher.py lines 21-43,
with the heap of both dict objects made explicit. -/
def enrichParamsTrace (params : PyDict) : EnrichHeap :=
  let h : EnrichHeap := { params := params, enriched := params }
  match h.params.lookup "date" with
  | none => h
  | some v =>
      if truthy v then
        match coerceDate v with
        | some dt => { h with enriched := applyDefaults h.enriched (derivedPairs dt) }
        | none => h
      else h

/-- The return value of `enrich_params(params)`. -/
def enrich_params (params : PyDict) : PyDict :=
  (enrichParamsTrace params).enriched

/-! ### Catalog entities (src/registry/catalog.py) -/

/-- `CatalogMetadata` from src/registry/catalog.py lines 15-22. -/
structure CatalogMetadata where
  version : String
  generated_at : String
  timezone : String
  notes : List String

/-- `Source` from src/registry/catalog.py lines 25-41 (the `raw` field is
stored by the loader but never read afterwards and is omitted). -/
structure Source where
  id : String
  name : String
  base_urls : List String
  discovery : Option PyDict

/-- `Source.to_dict` from src/registry/catalog.py lines 35-41
(`dict(self.discovery) if self.discovery else None`: `None` and the empty
mapping both serialize to `None`). -/
def Source.toDict (s : Source) : PyDict :=
  [("id", .str s.id),
   ("name", .str s.name),
   ("base_urls", .list (s.base_urls.map .str)),
   ("discovery", match s.discovery with
                 | some d => if d.isEmpty then .null else .dict d
                 | none => .null)]

/-- `CatalogEntry` from src/registry/catalog.py lines 44-51. -/
structure CatalogEntry where
  id : String
  raw : PyDict
  source : Source
  global_defaults : PyDict

/-- The `name` property: `self.raw.get("name", self.id)`. -/
def CatalogEntry.entryName (e : CatalogEntry) : Value :=
  (e.raw.lookup "name").getD (.str e.id)

/-- `dict(d.get(k, {}))`: the mapping stored under `k`, or empty.  (A
non-mapping value there is a `TypeError` in the source and is outside the
model.) -/
def getDictField (d : PyDict) (k : String) : PyDict :=
  match d.lookup k with
  | some (.dict x) => x
  | _ => []

/-- View a value as the mapping it must be for `{**v}` (a non-mapping is a
`TypeError` in the source and is outside the model). -/
def asDictValue : Value → PyDict
  | .dict d => d
  | _ => []

/-- View an optional raw field as the `Mapping | None` argument that
`_merge_dicts` receives (a stored JSON `null` is Python `None`; a
non-mapping, non-null value is a `TypeError` in the source and is outside
the model). -/
def optValToOptDict : Option Value → Option PyDict
  | some (.dict d) => some d
  | _ => none

/-- Serialize an optional merge result back into the request mapping
(`_merge_dicts` results are stored as-is, possibly `None`). -/
def mergeVal : Option PyDict → Value
  | some d => .dict d
  | none => .null

/-- `CatalogEntry.expand(params)` from src/registry/catalog.py lines
61-112. -/
def expand (e : CatalogEntry) (params : PyDict) : Except String PyDict :=
  let context := params
  let http_defaults := getDictField e.global_defaults "http"
  let scheduling_defaults := getDictField e.global_defaults "scheduling"
  let method := asciiUpper (pyStr ((e.raw.lookup "method").getD (.str "GET")))
  let urlT := (e.raw.lookup "url_template").getD .null
  if !truthy urlT then
    .error ("Catalog entry \x27" ++ e.id ++ "\x27 is missing \x27url_template\x27.")
  else
    let expanded_url := applyTemplate urlT context
    let query_template := let q := (e.raw.lookup "query_template").getD .null
                          if truthy q then q else .dict []
    let expanded_query := applyTemplate query_template context
    let payload_template := let p := (e.raw.lookup "payload_template").getD .null
                            if truthy p then p else .dict []
    let expanded_payload := applyTemplate payload_template context
    let header_template := let h := (e.raw.lookup "headers").getD .null
                           if truthy h then h else .dict []
    let endpoint_headers := applyTemplate header_template context
    let headers := dictUpdate (getDictField http_defaults "headers") (asDictValue endpoint_headers)
    let timeout_seconds : Option Value :=
      match e.raw.lookup "timeout_seconds" with
      | some v => some v
      | none => http_defaults.lookup "timeout_seconds"
    let retries := mergeDicts (optValToOptDict (http_defaults.lookup "retries"))
                              (optValToOptDict (e.raw.lookup "retries"))
    let rate_limit := mergeDicts (optValToOptDict (http_defaults.lookup "rate_limit"))
                                 (optValToOptDict (e.raw.lookup "rate_limit"))
    let scheduling := mergeDicts (some scheduling_defaults)
                                 (optValToOptDict (e.raw.lookup "scheduling"))
    let parser := selectParser e.raw
    let request : PyDict :=
      [("id", .str e.id),
       ("name", e.entryName),
       ("source", .dict e.source.toDict),
       ("method", .str method),
       ("endpoint", expanded_url),
       ("parser", parser),
       ("response", (e.raw.lookup "response").getD .null),
       ("rate_limit", mergeVal rate_limit),
       ("retries", mergeVal retries),
       ("scheduling", mergeVal scheduling)]
    let request := if truthy expanded_query then dictSet request "query" expanded_query
                   else request
    let request := if truthy expanded_payload then dictSet request "payload" expanded_payload
                   else request
    let request := if !headers.isEmpty then dictSet request "headers" (.dict headers)
                   else request
    let request := match timeout_seconds with
                   | some v => if isNull v then request else dictSet request "timeout_seconds" v
                   | none => request
    let request := match DEFAULT_STORAGE_MAP.lookup e.id with
                   | some plan => dictSet request "storage" (.dict (plan.render e.source.id context))
                   | none => request
    .ok request

/-- `Catalog` from src/registry/catalog.py lines 115-127. -/
structure Catalog where
  metadata : CatalogMetadata
  sources : List (String × Source)
  entries : List (String × CatalogEntry)

/-- Outcome of looking an entry id up, at either layer of the program:
`pyKeyError` is the generic `KeyError` a mapping lookup raises,
`unknownCategory` is the distinct caller-facing condition the CLI
produces (`parser.error(f"Unknown category: ...")`). -/
inductive EntryLookupResult where
  | found (e : CatalogEntry)
  | pyKeyError (key : String)
  | unknownCategory (message : String)

/-- `Catalog.get_entry(entry_id)` from src/registry/catalog.py lines
123-124 (`self.entries[entry_id]`): a plain mapping subscript, raising the
generic `KeyError` on a missing id.  `__getitem__` (lines 126-127) simply
delegates to it. -/
def Catalog.get_entry (c : Catalog) (entry_id : String) : EntryLookupResult :=
  match c.entries.lookup entry_id with
  | some e => .found e
  | none => .pyKeyError entry_id

/-- The CLI's lookup (src/app.py lines 57-62): `catalog[args.category]`
inside `try`, with `except KeyError` rewriting the failure into the
distinct `Unknown category` condition. -/
def appLookupCategory (catalog : Catalog) (category : String) : EntryLookupResult :=
  match catalog.get_entry category with
  | .pyKeyError _ => .unknownCategory ("Unknown category: " ++ category)
  | other => other

/-- The envelope assembly of `execute_entry` (src/sources/dispatcher.py
lines 105-113).  `payload` and `fetched_at` come from the external
transport / clock collaborators and are injected. -/
def executeEntryEnvelope (entry : CatalogEntry) (params : PyDict)
    (request_config : PyDict) (payload : Value) (fetched_at : String) : PyDict :=
  [("category", .str entry.id),
   ("name", entry.entryName),
   ("source", (request_config.lookup "source").getD .null),
   ("fetched_at", .str fetched_at),
   ("params", .dict params),
   ("payload", payload),
   ("storage", (request_config.lookup "storage").getD .null)]

/-- `execute_entry(entry, params)` from src/sources/dispatcher.py lines
58-113, with the transport response's decoded payload and the clock
injected: enrich, expand, and assemble the envelope around the original
(pre-enrichment) `params` object. -/
def execute_entry (entry : CatalogEntry) (params : PyDict) (payload : Value)
    (fetched_at : String) : Except String PyDict :=
  let trace := enrichParamsTrace params
  match expand entry trace.enriched with
  | .error msg => .error msg
  | .ok request_config =>
      .ok (executeEntryEnvelope entry trace.params request_config payload fetched_at)

/-! ## Shared lemmas about the dict model -/

theorem lookup_append {α β : Type} [BEq α] (k : α) (l₁ l₂ : List (α × β)) :
    List.lookup k (l₁ ++ l₂) = (List.lookup k l₁).orElse (fun _ => List.lookup k l₂) := by
  induction l₁ with
  | nil => simp
  | cons kv rest ih =>
      obtain ⟨a, b⟩ := kv
      cases hk : k == a <;> simp [List.lookup_cons, hk, ih]

theorem lookup_mem {α β : Type} [BEq α] [LawfulBEq α] {k : α} {v : β}
    {l : List (α × β)} (h : List.lookup k l = some v) : (k, v) ∈ l := by
  induction l with
  | nil => simp at h
  | cons kv rest ih =>
      obtain ⟨a, b⟩ := kv
      cases hk : k == a
      · simp [List.lookup_cons, hk] at h
        exact List.mem_cons_of_mem _ (ih h)
      · simp [List.lookup_cons, hk] at h
        have ha : k = a := by simpa using hk
        simp [ha, h]

theorem setdefault_preserves {d : PyDict} {k' : String} {w : Value}
    (k : String) (v : Value) (h : List.lookup k' d = some w) :
    List.lookup k' (setdefault d k v) = some w := by
  unfold setdefault
  by_cases hk : (List.lookup k d).isSome
  · simp [hk, h]
  · simp [hk, lookup_append, h]

theorem setdefault_other {d : PyDict} {k' k : String} (v : Value) (h : k' ≠ k) :
    List.lookup k' (setdefault d k v) = List.lookup k' d := by
  unfold setdefault
  by_cases hk : (List.lookup k d).isSome
  · simp [hk]
  · simp [hk, lookup_append]
    cases hl : List.lookup k' d <;>
      simp [List.lookup_cons, beq_false_of_ne h]

theorem setdefault_absent {d : PyDict} {k : String} (v : Value)
    (h : List.lookup k d = none) :
    List.lookup k (setdefault d k v) = some v := by
  unfold setdefault
  simp [h, lookup_append, List.lookup_cons]

theorem applyDefaults_preserves {d : PyDict} {k : String} {w : Value}
    (ds : List (String × Value)) (h : List.lookup k d = some w) :
    List.lookup k (applyDefaults d ds) = some w := by
  induction ds generalizing d with
  | nil => simpa [applyDefaults] using h
  | cons kv rest ih =>
      obtain ⟨k', v'⟩ := kv
      exact ih (setdefault_preserves k' v' h)

theorem applyDefaults_new {d : PyDict} {k : String}
    (ds : List (String × Value)) (h : List.lookup k d = none) :
    List.lookup k (applyDefaults d ds) = List.lookup k ds := by
  induction ds generalizing d with
  | nil => simpa [applyDefaults] using h
  | cons kv rest ih =>
      obtain ⟨k', v'⟩ := kv
      by_cases hk : k = k'
      · subst hk
        have h1 : List.lookup k (setdefault d k v') = some v' := setdefault_absent v' h
        simp [applyDefaults, List.lookup_cons,
          applyDefaults_preserves rest h1]
      · have h1 : List.lookup k (setdefault d k' v') = none := by
          rw [setdefault_other v' hk]; exact h
        simp [applyDefaults, List.lookup_cons, ih h1, beq_false_of_ne hk]

theorem lookup_map_overwrite_same {d : PyDict} {k : String} (v : Value)
    (hk : (List.lookup k d).isSome) :
    List.lookup k (d.map (fun kv => if kv.1 = k then (k, v) else kv)) = some v := by
  induction d with
  | nil => simp at hk
  | cons kv rest ih =>
      obtain ⟨a, b⟩ := kv
      by_cases ha : a = k
      · simp [ha, List.lookup_cons]
      · have hk' : (List.lookup k rest).isSome := by
          simpa [List.lookup_cons, beq_false_of_ne (Ne.symm ha)] using hk
        simp [List.lookup_cons, if_neg ha, beq_false_of_ne (Ne.symm ha), ih hk']

theorem lookup_map_overwrite_other {k' k : String} (d : PyDict) (v : Value)
    (h : k' ≠ k) :
    List.lookup k' (d.map (fun kv => if kv.1 = k then (k, v) else kv))
      = List.lookup k' d := by
  induction d with
  | nil => simp
  | cons kv rest ih =>
      obtain ⟨a, b⟩ := kv
      by_cases ha : a = k
      · subst ha
        simp [List.lookup_cons, beq_false_of_ne h, ih]
      · by_cases ha' : a = k'
        · subst ha'
          simp [List.lookup_cons, if_neg ha]
        · simp [List.lookup_cons, if_neg ha, beq_false_of_ne (Ne.symm ha'), ih]

theorem dictSet_lookup_same (d : PyDict) (k : String) (v : Value) :
    List.lookup k (dictSet d k v) = some v := by
  unfold dictSet
  by_cases hk : (List.lookup k d).isSome
  · simp only [hk, if_true]
    exact lookup_map_overwrite_same v hk
  · have h0 : List.lookup k d = none := by
      cases h : List.lookup k d
      · rfl
      · rw [h] at hk; simp at hk
    simp [hk, lookup_append, h0, List.lookup_cons]

theorem dictSet_lookup_other {k' k : String} (d : PyDict) (v : Value) (h : k' ≠ k) :
    List.lookup k' (dictSet d k v) = List.lookup k' d := by
  unfold dictSet
  by_cases hk : (List.lookup k d).isSome
  · simp only [hk, if_true]
    exact lookup_map_overwrite_other d v h
  · simp [hk, lookup_append]
    cases hl : List.lookup k' d <;>
      simp [List.lookup_cons, beq_false_of_ne h]

/-! ## Shared lemmas about template substitution -/

theorem substFold_id {s : String} {params : PyDict}
    (h : ∀ kv ∈ params, strContains s (placeholderOf kv.1) = false) :
    params.foldl substOne s = s := by
  induction params with
  | nil => rfl
  | cons kv rest ih =>
      have h1 : substOne s kv = s := by
        simp [substOne, h kv (List.mem_cons_self kv rest)]
      rw [List.foldl_cons, h1]
      exact ih (fun kv' hkv' => h kv' (List.mem_cons_of_mem kv hkv'))

theorem applyTemplateFields_eq_map (items : List (String × Value)) (params : PyDict) :
    applyTemplateFields items params
      = items.map (fun kv => (kv.1, applyTemplate kv.2 params)) := by
  induction items with
  | nil => simp [applyTemplateFields]
  | cons kv rest ih =>
      obtain ⟨k, v⟩ := kv
      simp [applyTemplateFields, ih]

theorem applyTemplateElems_eq_map (items : List Value) (params : PyDict) :
    applyTemplateElems items params = items.map (fun x => applyTemplate x params) := by
  induction items with
  | nil => simp [applyTemplateElems]
  | cons v rest ih => simp [applyTemplateElems, ih]

mutual

/-- A value is untouched by substitution against `params` when no string
inside it is a parameter key and no string inside it contains a `{k}`
placeholder for a parameter `k`. -/
def untouched (params : PyDict) : Value → Bool
  | .str s =>
      (List.lookup s params).isNone
        && params.all (fun kv => !(strContains s (placeholderOf kv.1)))
  | .dict items => untouchedFields params items
  | .list items => untouchedElems params items
  | .num _ => true
  | .boolean _ => true
  | .null => true

def untouchedFields (params : PyDict) : List (String × Value) → Bool
  | [] => true
  | (_, v) :: rest => untouched params v && untouchedFields params rest

def untouchedElems (params : PyDict) : List Value → Bool
  | [] => true
  | v :: rest => untouched params v && untouchedElems params rest

end

mutual

theorem untouched_applyTemplate :
    ∀ (params : PyDict) (v : Value),
      untouched params v = true → applyTemplate v params = v
  | params, .str s, h => by
      simp only [untouched, Bool.and_eq_true] at h
      obtain ⟨h1, h2⟩ := h
      have hl : List.lookup s params = none := by
        cases hx : List.lookup s params
        · rfl
        · rw [hx] at h1; simp at h1
      have hall : ∀ kv ∈ params, strContains s (placeholderOf kv.1) = false := by
        intro kv hkv
        have := (List.all_eq_true.mp h2) kv hkv
        simpa using this
      simp [applyTemplate, substitute, hl, substFold_id hall]
  | params, .dict items, h => by
      simp only [untouched] at h
      simp [applyTemplate, untouched_applyTemplateFields params items h]
  | params, .list items, h => by
      simp only [untouched] at h
      simp [applyTemplate, untouched_applyTemplateElems params items h]
  | _, .num _, _ => by simp [applyTemplate, substitute]
  | _, .boolean _, _ => by simp [applyTemplate, substitute]
  | _, .null, _ => by simp [applyTemplate, substitute]

theorem untouched_applyTemplateFields :
    ∀ (params : PyDict) (items : List (String × Value)),
      untouchedFields params items = true → applyTemplateFields items params = items
  | _, [], _ => by simp [applyTemplateFields]
  | params, (k, v) :: rest, h => by
      simp only [untouchedFields, Bool.and_eq_true] at h
      simp [applyTemplateFields, untouched_applyTemplate params v h.1,
        untouched_applyTemplateFields params rest h.2]

theorem untouched_applyTemplateElems :
    ∀ (params : PyDict) (items : List Value),
      untouchedElems params items = true → applyTemplateElems items params = items
  | _, [], _ => by simp [applyTemplateElems]
  | params, v :: rest, h => by
      simp only [untouchedElems, Bool.and_eq_true] at h
      simp [applyTemplateElems, untouched_applyTemplate params v h.1,
        untouched_applyTemplateElems params rest h.2]

end

/-! ## Shared lemmas about the path model -/

theorem splitChar_ne_nil (c : Char) (s : List Char) : splitChar c s ≠ [] := by
  induction s with
  | nil => simp [splitChar]
  | cons x rest ih =>
      simp only [splitChar]
      cases h : splitChar c rest with
      | nil => simp
      | cons cur parts => by_cases hx : x = c <;> simp [hx]

theorem splitChar_not_mem (c : Char) (s : List Char) :
    ∀ part ∈ splitChar c s, c ∉ part := by
  induction s with
  | nil =>
      intro part hp
      simp [splitChar] at hp
      simp [hp]
  | cons x rest ih =>
      intro part hp
      simp only [splitChar] at hp
      cases h : splitChar c rest with
      | nil => exact absurd h (splitChar_ne_nil c rest)
      | cons cur parts =>
          rw [h] at hp
          by_cases hx : x = c
          · simp only [hx, if_true] at hp
            rcases List.mem_cons.mp hp with hp | hp
            · simp [hp]
            · exact ih part (h ▸ hp)
          · simp only [hx, if_false] at hp
            rcases List.mem_cons.mp hp with hp | hp
            · subst hp
              intro hc
              rcases List.mem_cons.mp hc with hc | hc
              · exact hx hc.symm
              · exact ih cur (h ▸ List.mem_cons_self cur parts) hc
            · exact ih part (h ▸ List.mem_cons_of_mem cur hp)

theorem splitChar_no_sep (c : Char) (s : List Char) (h : c ∉ s) :
    splitChar c s = [s] := by
  induction s with
  | nil => rfl
  | cons x rest ih =>
      have hx : ¬x = c := fun hc => h (hc ▸ List.mem_cons_self x rest)
      have hr : c ∉ rest := fun hc => h (List.mem_cons_of_mem x hc)
      simp [splitChar, ih hr, hx]

theorem pathSegsOf_single (seg : String) (hc : '/' ∉ seg.data)
    (hne : seg.isEmpty = false) : pathSegsOf seg = [seg] := by
  unfold pathSegsOf strSplitChar
  rw [splitChar_no_sep _ _ hc]
  simp [hne]

theorem foldl_pathDiv_mem (x : String) (ds : List String) (p : List String)
    (hx : x ∈ ds.foldl pathDiv p) : x ∈ p ∨ ∃ seg ∈ ds, x ∈ pathSegsOf seg := by
  induction ds generalizing p with
  | nil => exact Or.inl (by simpa using hx)
  | cons seg rest ih =>
      simp only [List.foldl_cons] at hx
      rcases ih (pathDiv p seg) hx with h | h
      · unfold pathDiv at h
        rcases List.mem_append.mp h with h | h
        · exact Or.inl h
        · exact Or.inr ⟨seg, List.mem_cons_self seg rest, h⟩
      · rcases h with ⟨s2, hs2, hxs⟩
        exact Or.inr ⟨s2, List.mem_cons_of_mem seg hs2, hxs⟩

/-! ## Claim theorems -/

/-- A loaded catalog with no entries, used to exhibit lookups of ids that
are not present. -/
def c1Catalog : Catalog := ⟨⟨"1.0", "", "Asia/Taipei", []⟩, [], []⟩

/-- C1 is refuted: `Catalog.get_entry` (and `__getitem__`) on an id absent
from the entry mapping fails with the generic `KeyError`, not with the
distinct "unknown category" condition. -/
theorem C1_counterexample :
    c1Catalog.get_entry "twse.unknown" = .pyKeyError "twse.unknown" ∧
    c1Catalog.get_entry "twse.unknown"
      ≠ .unknownCategory "Unknown category: twse.unknown" := by
  refine ⟨rfl, ?_⟩
  intro h
  rw [show c1Catalog.get_entry "twse.unknown"
        = .pyKeyError "twse.unknown" from rfl] at h
  exact EntryLookupResult.noConfusion h

/-- C1 amended: for every loaded catalog and entry id not in its entry
mapping, `Catalog.get_entry` raises the generic `KeyError`; the distinct
"unknown category" condition is produced one layer up, by the CLI in
src/app.py, which catches that `KeyError` and rewrites it into the
`Unknown category: ...` message. -/
theorem C1_amended (c : Catalog) (entry_id : String)
    (h : List.lookup entry_id c.entries = none) :
    c.get_entry entry_id = .pyKeyError entry_id ∧
    appLookupCategory c entry_id
      = .unknownCategory ("Unknown category: " ++ entry_id) := by
  have h1 : c.get_entry entry_id = .pyKeyError entry_id := by
    simp [Catalog.get_entry, h]
  exact ⟨h1, by simp [appLookupCategory, h1]⟩

/-- Witness for C1 amended at a concrete catalog and id. -/
theorem C1_witness :
    c1Catalog.get_entry "nope" = .pyKeyError "nope" ∧
    appLookupCategory c1Catalog "nope" = .unknownCategory "Unknown category: nope" :=
  C1_amended c1Catalog "nope" rfl

/-- C2 is refuted: `_merge_dicts({}, None)` returns `None`, not the empty
mapping — the truthiness test `if not base and not overrides` conflates an
empty mapping with an absent one. -/
theorem C2_counterexample :
    mergeDicts (some ([] : PyDict)) none = none ∧
    mergeDicts (some ([] : PyDict)) none ≠ some ([] : PyDict) := by
  refine ⟨rfl, ?_⟩
  intro h
  rw [show mergeDicts (some ([] : PyDict)) none = none from rfl] at h
  exact Option.noConfusion h

/-- C2 amended: the merge satisfies `merge(null, null) = null` and
`merge({a:1}, {a:2,b:3}) = {a:2,b:3}` with override keys winning, but
`merge({}, null) = null`: it returns `null` exactly when both inputs are
falsy (absent **or empty**), so the code does not distinguish "empty
policy" from "no policy configured". -/
theorem C2_amended :
    mergeDicts none none = none ∧
    mergeDicts (some ([] : PyDict)) none = none ∧
    mergeDicts (some [("a", Value.num 1)]) (some [("a", Value.num 2), ("b", Value.num 3)])
      = some [("a", Value.num 2), ("b", Value.num 3)] ∧
    ∀ base overrides : Option PyDict,
      (mergeDicts base overrides = none
        ↔ (falsyOptDict base && falsyOptDict overrides) = true) := by
  refine ⟨rfl, rfl, rfl, ?_⟩
  intro base overrides
  unfold mergeDicts
  by_cases h : (falsyOptDict base && falsyOptDict overrides) = true <;> simp [h]

/-- C4: parser selection precedence at expand time — a truthy explicit
`parser` field wins over content-type inference, which wins over the
default `json`; an explicit `"csv"` beats a declared
`application/json`; absent or unrecognized content types fall back to
`json`; recognized MIME candidates (with `;` parameters stripped and `|`
alternatives scanned in order) select their parser. -/
theorem C4 :
    (∀ (raw : PyDict) (p : Value),
      List.lookup "parser" raw = some p → truthy p = true → selectParser raw = p) ∧
    selectParser [("parser", .str "csv"),
        ("response", .dict [("content_type", .str "application/json")])] = .str "csv" ∧
    (∀ raw : PyDict, List.lookup "parser" raw = none →
      List.lookup "response" raw = none → selectParser raw = .str "json") ∧
    parserFromResponse none = "json" ∧
    parserFromResponse (some [("content_type", .str "application/x-unknown")]) = "json" ∧
    parserFromResponse (some [("content_type", .str "text/csv; charset=ms950")]) = "csv" ∧
    parserFromResponse (some [("content_type", .str "application/rss+xml|text/xml")]) = "rss" := by
  refine ⟨?_, rfl, ?_, rfl, rfl, rfl, rfl⟩
  · intro raw p h ht
    simp [selectParser, h, ht]
  · intro raw h1 h2
    simp [selectParser, h1, h2, rawResponseDict, parserFromResponse, truthy]

/-- Witness for C4 at concrete entries. -/
theorem C4_witness :
    selectParser [("parser", .str "rss"),
        ("response", .dict [("content_type", .str "text/csv")])] = .str "rss" ∧
    selectParser [("url_template", .str "https://x")] = .str "json" :=
  ⟨C4.1 [("parser", .str "rss"), ("response", .dict [("content_type", .str "text/csv")])]
      (.str "rss") rfl rfl,
   C4.2.2.1 [("url_template", .str "https://x")] rfl rfl⟩

/-- The storage plan registered for `twse.exchangeReport.STOCK_DAY`. -/
def stockDayPlan : StoragePlan :=
  { scope := "instrument", dataset := "ohlcv/daily",
    instrument_type := some "equity", parameter_key := some "stock_code",
    frequency := some "1d", timezone := some "Asia/Taipei",
    notes := some "stock-day-note" }

/-- C3: storage resolution is all-or-nothing — a missing required key
(`parameter_key`, and `derivative_key` when declared) makes `resolve`
return `null`, never a partially-substituted string; for the
`stock_code`-keyed `ohlcv/daily` plan, `resolve` with empty params is
`null`, `resolve` with `stock_code="2330"` is a concrete path ending in
`2330/spot/ohlcv/daily`, and `template` always succeeds and ends in
`{stock_code}/spot/ohlcv/daily` for every source id (it takes no
params at all). -/
theorem C3 :
    (∀ (plan : StoragePlan) (sid : String) (params : PyDict) (k : String),
      plan.scope = "instrument" → plan.parameter_key = some k →
      List.lookup k params = none → plan.resolve sid params = none) ∧
    (∀ (plan : StoragePlan) (sid : String) (params : PyDict) (dk : String),
      plan.scope = "instrument" → plan.derivative_key = some dk → dk ≠ "" →
      List.lookup dk params = none → plan.resolve sid params = none) ∧
    List.lookup "twse.exchangeReport.STOCK_DAY" DEFAULT_STORAGE_MAP = some stockDayPlan ∧
    stockDayPlan.resolve "twse" [] = none ∧
    stockDayPlan.resolve "twse" [("stock_code", .str "2330")]
      = some "twse/2330/spot/ohlcv/daily" ∧
    stockDayPlan.template "twse"
      = "twse/" ++ placeholderOf "stock_code" ++ "/spot/ohlcv/daily" ∧
    (∀ sid, stockDayPlan.template sid
      = joinPath (pathSegsOf sid ++ [placeholderOf "stock_code", "spot", "ohlcv", "daily"])) ∧
    (∀ sid, stockDayPlan.resolve sid [("stock_code", .str "2330")]
      = some (joinPath (pathSegsOf sid ++ ["2330", "spot", "ohlcv", "daily"]))) := by
  refine ⟨?_, ?_, rfl, rfl, rfl, rfl, ?_, ?_⟩
  · intro plan sid params k hscope hk hlook
    simp [StoragePlan.resolve, StoragePlan.buildPath, StoragePlan.segment,
      hscope, hk, hlook]
  · intro plan sid params dk hscope hdk hne hlook
    have hie : dk.isEmpty = false := by
      by_contra hb
      have h1 : dk.isEmpty = true := by revert hb; cases dk.isEmpty <;> simp
      exact hne ((String.isEmpty_iff dk).mp (by rw [h1]))
    have htr : strOptTruthy plan.derivative_key = true := by
      simp [strOptTruthy, hdk, hie]
    cases hseg : StoragePlan.segment plan.parameter_key false (some params) with
    | none =>
        simp [StoragePlan.resolve, StoragePlan.buildPath, hscope, hseg]
    | some symbol =>
        simp only [StoragePlan.resolve, StoragePlan.buildPath, hscope, hseg, htr]
        simp [StoragePlan.segment, hdk, hlook]
  · intro sid
    have hb : stockDayPlan.buildPath sid true none
        = some ((((pathSegsOf sid ++ [placeholderOf "stock_code"]) ++ ["spot"])
            ++ ["ohlcv"]) ++ ["daily"]) := rfl
    simp only [StoragePlan.template, hb]
    congr 1
    simp [List.append_assoc]
  · intro sid
    have hb : stockDayPlan.buildPath sid false (some [("stock_code", .str "2330")])
        = some ((((pathSegsOf sid ++ ["2330"]) ++ ["spot"]) ++ ["ohlcv"]) ++ ["daily"]) := rfl
    simp only [StoragePlan.resolve, hb]
    congr 2
    simp [List.append_assoc]

/-- Witness for C3 at concrete plans, source ids and parameter maps. -/
theorem C3_witness :
    stockDayPlan.resolve "twse" [("other", .str "1")] = none ∧
    StoragePlan.resolve
        { scope := "instrument", dataset := "d", parameter_key := some "pk",
          derivative_key := some "und" }
        "taifex" [("pk", .str "X")] = none ∧
    stockDayPlan.template "tpex"
      = joinPath (pathSegsOf "tpex" ++ [placeholderOf "stock_code", "spot", "ohlcv", "daily"]) ∧
    stockDayPlan.resolve "tpex" [("stock_code", .str "2330")]
      = some (joinPath (pathSegsOf "tpex" ++ ["2330", "spot", "ohlcv", "daily"])) :=
  ⟨C3.1 stockDayPlan "twse" [("other", .str "1")] "stock_code" rfl rfl rfl,
   C3.2.1 { scope := "instrument", dataset := "d", parameter_key := some "pk",
            derivative_key := some "und" }
     "taifex" [("pk", .str "X")] "und" rfl rfl (by decide) rfl,
   C3.2.2.2.2.2.2.1 "tpex",
   C3.2.2.2.2.2.2.2 "tpex"⟩

/-- C5: template substitution on a string scalar: a whole-string parameter
key is replaced by the raw (type-preserved) value; with no whole-string
match and no matching placeholder the string is left verbatim (no error);
dicts and lists recurse element-wise in order; placeholder occurrences are
replaced by `str` of the parameter value. -/
theorem C5 (params : PyDict) :
    (∀ s pv, List.lookup s params = some pv → substitute (.str s) params = pv) ∧
    (∀ s, List.lookup s params = none →
      (∀ kv ∈ params, strContains s (placeholderOf kv.1) = false) →
      substitute (.str s) params = .str s) ∧
    (∀ items, applyTemplate (.dict items) params
        = .dict (items.map (fun kv => (kv.1, applyTemplate kv.2 params)))) ∧
    (∀ items, applyTemplate (.list items) params
        = .list (items.map (fun x => applyTemplate x params))) ∧
    substitute (.str "code") [("code", .num 2330)] = .num 2330 ∧
    substitute (.str ("a" ++ placeholderOf "k" ++ "b" ++ placeholderOf "k"))
        [("k", .num 7)] = .str "a7b7" := by
  refine ⟨?_, ?_, ?_, ?_, rfl, rfl⟩
  · intro s pv h
    simp [substitute, h]
  · intro s h hall
    simp [substitute, h, substFold_id hall]
  · intro items
    simp [applyTemplate, applyTemplateFields_eq_map]
  · intro items
    simp [applyTemplate, applyTemplateElems_eq_map]

/-- Witness for C5 at concrete inputs. -/
theorem C5_witness :
    substitute (.str "stock_code") [("stock_code", .str "2330")] = .str "2330" ∧
    substitute (.str "plain") [("stock_code", .str "2330")] = .str "plain" :=
  ⟨(C5 [("stock_code", .str "2330")]).1 "stock_code" _ rfl,
   (C5 [("stock_code", .str "2330")]).2.1 "plain" rfl (by decide)⟩

/-- The parameter mapping of the C6 counterexample. -/
def c6Params : PyDict := [("p", .str "x"), ("x", .str "z")]

/-- C6 is refuted: substituting `"{p}"` against `{p: "x", x: "z"}` gives
`"x"`, which contains no remaining `{k}` token for any supplied parameter,
yet re-running substitution maps it to `"z"` (the whole-string-key branch
fires), so substitution is not idempotent on substituted output. -/
theorem C6_counterexample :
    applyTemplate (.str (placeholderOf "p")) c6Params = .str "x" ∧
    strContains "x" (placeholderOf "p") = false ∧
    strContains "x" (placeholderOf "x") = false ∧
    applyTemplate (.str "x") c6Params ≠ .str "x" := by
  refine ⟨rfl, by decide, by decide, ?_⟩
  intro h
  rw [show applyTemplate (.str "x") c6Params = .str "z" from rfl] at h
  exact absurd (Value.str.inj h) (by decide)

/-- C6 amended: substitution is a no-op on every value in which no string
contains a `{k}` placeholder for a supplied parameter **and** no string is
itself (as a whole) a parameter key — the extra whole-string-key condition
is what the counterexample forces. -/
theorem C6_amended (v : Value) (params : PyDict)
    (h : untouched params v = true) : applyTemplate v params = v :=
  untouched_applyTemplate params v h

/-- Witness for C6 amended at a concrete nested value. -/
theorem C6_witness :
    applyTemplate (.dict [("q", .list [.str "done", .num 3])]) [("k", .str "v")]
      = .dict [("q", .list [.str "done", .num 3])] :=
  C6_amended (.dict [("q", .list [.str "done", .num 3])]) [("k", .str "v")] (by decide)

/-- C7: enriching a parameter mapping whose `date` is `"2024-09-05"`
preserves every original parameter (derived keys are added with
`setdefault`, so caller-supplied values take precedence) and derives
`YYYYMMDD = "20240905"`, `YYY/MM = "113/09"` and
`YYYY/MM/DD = "2024/09/05"` whenever those keys are not already present. -/
theorem C7 (p : PyDict) (h : List.lookup "date" p = some (.str "2024-09-05")) :
    (∀ k v, List.lookup k p = some v → List.lookup k (enrich_params p) = some v) ∧
    (List.lookup "YYYYMMDD" p = none →
      List.lookup "YYYYMMDD" (enrich_params p) = some (.str "20240905")) ∧
    (List.lookup "YYY/MM" p = none →
      List.lookup "YYY/MM" (enrich_params p) = some (.str "113/09")) ∧
    (List.lookup "YYYY/MM/DD" p = none →
      List.lookup "YYYY/MM/DD" (enrich_params p) = some (.str "2024/09/05")) := by
  have hdt : coerceDate (.str "2024-09-05") = some ⟨2024, 9, 5⟩ := by decide
  have htr : truthy (Value.str "2024-09-05") = true := rfl
  have he : enrich_params p = applyDefaults p (derivedPairs ⟨2024, 9, 5⟩) := by
    simp [enrich_params, enrichParamsTrace, h, hdt, htr]
  refine ⟨?_, ?_, ?_, ?_⟩
  · intro k v hk
    rw [he]
    exact applyDefaults_preserves _ hk
  · intro habs
    rw [he, applyDefaults_new _ habs]
    rfl
  · intro habs
    rw [he, applyDefaults_new _ habs]
    rfl
  · intro habs
    rw [he, applyDefaults_new _ habs]
    rfl

/-- Witness for C7 at a concrete parameter mapping (including a
caller-supplied `YYYYMMDD` surviving untouched). -/
theorem C7_witness :
    List.lookup "YYY/MM" (enrich_params [("date", .str "2024-09-05")])
      = some (.str "113/09") ∧
    List.lookup "YYYYMMDD"
        (enrich_params [("date", .str "2024-09-05"), ("YYYYMMDD", .str "x")])
      = some (.str "x") :=
  ⟨(C7 [("date", .str "2024-09-05")] rfl).2.2.1 rfl,
   (C7 [("date", .str "2024-09-05"), ("YYYYMMDD", .str "x")] rfl).1 "YYYYMMDD" _ rfl⟩

/-- C9: `enrich_params` never mutates its argument — the source copies it
with `dict(params)` and applies every `setdefault` to the copy — and
`execute_entry` places the original (pre-enrichment) mapping in the result
envelope's `params` field. -/
theorem C9 (entry : CatalogEntry) (params : PyDict) (payload : Value)
    (fetched_at : String) :
    (enrichParamsTrace params).params = params ∧
    (execute_entry entry params payload fetched_at).map
        (fun env => List.lookup "params" env)
      = (expand entry (enrich_params params)).map (fun _ => some (.dict params)) := by
  have hp : (enrichParamsTrace params).params = params := by
    simp only [enrichParamsTrace]
    cases h : List.lookup "date" params
    · rfl
    case some v =>
      by_cases ht : truthy v = true
      · simp only [ht, if_true]
        cases hc : coerceDate v <;> rfl
      · simp only [Bool.not_eq_true] at ht
        simp only [ht]
        rfl
  refine ⟨hp, ?_⟩
  unfold execute_entry
  cases hx : expand entry (enrichParamsTrace params).enriched
  case error msg =>
    simp [enrich_params, hx, Except.map]
  case ok rc =>
    simp only [enrich_params, hx, Except.map]
    have hl : List.lookup "params"
        (executeEntryEnvelope entry (enrichParamsTrace params).params rc payload fetched_at)
        = some (.dict (enrichParamsTrace params).params) := rfl
    rw [hl, hp]

/-- C10: for instrument-scope storage plans, a required parameter bound to
`None` is treated exactly like a missing parameter (`resolve` returns
`null`), and a resolved path contains the literal segment `"None"` only if
it was fed in from outside (the source id, a parameter's string value, or
the dataset) — never from the null-handling itself; the registry's
instrument plans have no derivative key and no `"None"` dataset segment. -/
theorem C10 :
    (∀ (plan : StoragePlan) (sid : String) (params : PyDict) (k : String),
      plan.scope = "instrument" → plan.parameter_key = some k →
      List.lookup k params = some .null → plan.resolve sid params = none) ∧
    (∀ (plan : StoragePlan) (sid : String) (params : PyDict) (dk : String),
      plan.scope = "instrument" → plan.derivative_key = some dk → dk ≠ "" →
      List.lookup dk params = some .null → plan.resolve sid params = none) ∧
    (∀ (plan : StoragePlan) (sid : String) (params : PyDict) (segs : List String),
      plan.scope = "instrument" → strOptTruthy plan.derivative_key = false →
      plan.buildPath sid false (some params) = some segs →
      "None" ∉ pathSegsOf sid →
      (∀ kv ∈ params, "None" ∉ pathSegsOf (pyStr kv.2)) →
      "None" ∉ (strSplitChar '/' plan.dataset).filter (fun seg => !seg.isEmpty) →
      "None" ∉ segs) ∧
    (∀ pr ∈ DEFAULT_STORAGE_MAP, pr.2.scope = "instrument" →
      pr.2.derivative_key = none ∧
      "None" ∉ (strSplitChar '/' pr.2.dataset).filter (fun seg => !seg.isEmpty)) := by
  refine ⟨?_, ?_, ?_, ?_⟩
  · intro plan sid params k hscope hk hlook
    simp [StoragePlan.resolve, StoragePlan.buildPath, StoragePlan.segment,
      hscope, hk, hlook, isNull]
  · intro plan sid params dk hscope hdk hne hlook
    have hie : dk.isEmpty = false := by
      by_contra hb
      have h1 : dk.isEmpty = true := by revert hb; cases dk.isEmpty <;> simp
      exact hne ((String.isEmpty_iff dk).mp (by rw [h1]))
    have htr : strOptTruthy plan.derivative_key = true := by
      simp [strOptTruthy, hdk, hie]
    cases hseg : StoragePlan.segment plan.parameter_key false (some params) with
    | none =>
        simp [StoragePlan.resolve, StoragePlan.buildPath, hscope, hseg]
    | some symbol =>
        simp only [StoragePlan.resolve, StoragePlan.buildPath, hscope, hseg, htr]
        simp [StoragePlan.segment, hdk, hlook, isNull]
  · intro plan sid params segs hscope hdkf hbuild hsid hparams hdata
    simp [StoragePlan.buildPath, hscope, hdkf] at hbuild
    cases hseg : StoragePlan.segment plan.parameter_key false (some params) with
    | none => simp [hseg] at hbuild
    | some symbol =>
        simp only [hseg] at hbuild
        have hsym : ∃ k v, plan.parameter_key = some k ∧
            List.lookup k params = some v ∧ symbol = pyStr v := by
          cases hpk : plan.parameter_key with
          | none => rw [hpk] at hseg; simp [StoragePlan.segment] at hseg
          | some k =>
              rw [hpk] at hseg
              cases hl : List.lookup k params with
              | none => simp [StoragePlan.segment, hl] at hseg
              | some v =>
                  by_cases hn : isNull v = true
                  · simp [StoragePlan.segment, hl, hn] at hseg
                  · simp [StoragePlan.segment, hl, hn] at hseg
                    exact ⟨k, v, rfl, hl, hseg.symm⟩
        obtain ⟨k, v, hk, hv, rfl⟩ := hsym
        have hvmem : "None" ∉ pathSegsOf (pyStr v) :=
          hparams (k, v) (lookup_mem hv)
        have hsegs : segs
            = List.foldl pathDiv (asPathFrom (pathSegsOf sid) [pyStr v, "spot"])
                ((strSplitChar '/' plan.dataset).filter (fun seg => !seg.isEmpty)) := by
          simp only [Option.some.injEq] at hbuild
          exact hbuild.symm
        rw [hsegs]
        intro hmem
        rcases foldl_pathDiv_mem _ _ _ hmem with h | ⟨seg, hsegmem, hin⟩
        · have hALT : asPathFrom (pathSegsOf sid) [pyStr v, "spot"]
              = (if (pyStr v).isEmpty = true then pathSegsOf sid
                 else pathSegsOf sid ++ pathSegsOf (pyStr v)) ++ ["spot"] := by
            simp only [asPathFrom, List.foldl_cons, List.foldl_nil, pathDiv,
              show "spot".isEmpty = false from rfl,
              show pathSegsOf "spot" = ["spot"] from rfl]
            by_cases hsy : (pyStr v).isEmpty = true <;> simp [hsy]
          rw [hALT] at h
          rcases List.mem_append.mp h with h1 | h1
          · by_cases hsy : (pyStr v).isEmpty = true
            · rw [if_pos hsy] at h1
              exact hsid h1
            · rw [if_neg hsy] at h1
              rcases List.mem_append.mp h1 with h2 | h2
              · exact hsid h2
              · exact hvmem h2
          · simp at h1
        · have hf := List.mem_filter.mp hsegmem
          obtain ⟨part, hpart, hmk⟩ := List.mem_map.mp hf.1
          have hslash : '/' ∉ seg.data := by
            rw [← hmk]
            exact splitChar_not_mem '/' plan.dataset.data part hpart
          have hne : seg.isEmpty = false := by
            have h2 := hf.2
            revert h2
            cases seg.isEmpty <;> simp
          rw [pathSegsOf_single seg hslash hne] at hin
          have hseq : "None" = seg := by simpa using hin
          rw [← hseq] at hsegmem
          exact hdata hsegmem
  · intro pr hpr hscope
    fin_cases hpr <;> simp_all <;> decide

/-- Witness for C10 at concrete plans and parameter maps. -/
theorem C10_witness :
    stockDayPlan.resolve "twse" [("stock_code", .null)] = none ∧
    StoragePlan.resolve
        { scope := "instrument", dataset := "d", parameter_key := some "pk",
          derivative_key := some "und" }
        "taifex" [("pk", .str "X"), ("und", .null)] = none ∧
    "None" ∉ ["twse", "2330", "spot", "ohlcv", "daily"] ∧
    stockDayPlan.derivative_key = none :=
  ⟨C10.1 stockDayPlan "twse" [("stock_code", .null)] "stock_code" rfl rfl rfl,
   C10.2.1 { scope := "instrument", dataset := "d", parameter_key := some "pk",
             derivative_key := some "und" }
     "taifex" [("pk", .str "X"), ("und", .null)] "und" rfl rfl (by decide) rfl,
   C10.2.2.1 stockDayPlan "twse" [("stock_code", .str "2330")]
     ["twse", "2330", "spot", "ohlcv", "daily"] rfl rfl rfl
     (by decide) (by decide) (by decide),
   (C10.2.2.2 ("twse.exchangeReport.STOCK_DAY", stockDayPlan) (by decide) rfl).1⟩

/-- A minimal entry with no headers anywhere, whose id has no storage plan. -/
def c8Entry : CatalogEntry :=
  ⟨"c8.entry", [("url_template", .str "https://example.test")], ⟨"s8", "s8", [], none⟩, []⟩

/-- C8 is refuted: when neither the global HTTP defaults nor the entry
declare headers, `expand` omits the `headers` field from the request
descriptor entirely (`if headers:` skips an empty mapping) instead of
materializing an empty mapping. -/
theorem C8_counterexample :
    (expand c8Entry []).map (fun r => List.lookup "headers" r) = .ok none ∧
    (expand c8Entry []).map (fun r => List.lookup "headers" r)
      ≠ .ok (some (.dict [])) := by
  refine ⟨rfl, ?_⟩
  intro h
  rw [show (expand c8Entry []).map (fun r => List.lookup "headers" r)
        = .ok none from rfl] at h
  have h1 : (none : Option Value) = some (.dict []) := Except.ok.inj h
  exact Option.noConfusion h1

/-- The merged headers mapping that `expand` computes (global HTTP default
headers overridden by the entry's template-expanded headers). -/
def expandedHeaders (e : CatalogEntry) (params : PyDict) : PyDict :=
  dictUpdate (getDictField (getDictField e.global_defaults "http") "headers")
    (asDictValue (applyTemplate
      (if truthy ((e.raw.lookup "headers").getD .null) = true
       then (e.raw.lookup "headers").getD .null
       else .dict []) params))

/-- C8 amended: the headers merge itself always yields a mapping (never
`null`, unlike the `_merge_dicts`-based fields), but `expand` attaches it
to the request descriptor only when it is non-empty; when both sides are
empty the `headers` field is absent, not an empty mapping. -/
theorem C8_amended (e : CatalogEntry) (params : PyDict) (r : PyDict)
    (hok : expand e params = .ok r) :
    (expandedHeaders e params = [] → List.lookup "headers" r = none) ∧
    (expandedHeaders e params ≠ [] →
      List.lookup "headers" r = some (.dict (expandedHeaders e params))) := by
  by_cases hu : truthy ((e.raw.lookup "url_template").getD .null) = true
  · simp only [expand, hu, Bool.not_true, Bool.false_eq_true, if_false,
      Except.ok.injEq] at hok
    subst hok
    constructor
    · intro hH
      simp only [← expandedHeaders.eq_def]
      rw [hH]
      simp only [List.isEmpty_nil, Bool.not_true, Bool.false_eq_true, if_false]
      repeat' split
      all_goals
        try simp only [dictSet_lookup_other _ _ (by decide : ("headers" : String) ≠ "storage"),
          dictSet_lookup_other _ _ (by decide : ("headers" : String) ≠ "timeout_seconds"),
          dictSet_lookup_other _ _ (by decide : ("headers" : String) ≠ "payload"),
          dictSet_lookup_other _ _ (by decide : ("headers" : String) ≠ "query")]
      all_goals rfl
    · intro hH
      simp only [← expandedHeaders.eq_def]
      have hc : (!List.isEmpty (expandedHeaders e params)) = true := by
        cases hemp : List.isEmpty (expandedHeaders e params)
        · rfl
        · exact absurd (List.isEmpty_iff.mp hemp) hH
      rw [if_pos hc]
      repeat' split
      all_goals
        try simp only [dictSet_lookup_other _ _ (by decide : ("headers" : String) ≠ "storage"),
          dictSet_lookup_other _ _ (by decide : ("headers" : String) ≠ "timeout_seconds")]
      all_goals rw [dictSet_lookup_same]
  · simp only [expand] at hok
    rw [if_pos (by simp [hu])] at hok
    exact Except.noConfusion hok

/-- A minimal entry that does declare a header. -/
def c8bEntry : CatalogEntry :=
  ⟨"c8.b", [("url_template", .str "https://x"), ("headers", .dict [("X-A", .str "1")])],
   ⟨"s8", "s8", [], none⟩, []⟩

/-- The request descriptor `expand` produces for `c8Entry` (no headers). -/
def c8Desc : PyDict :=
  [("id", .str "c8.entry"), ("name", .str "c8.entry"),
   ("source", .dict [("id", .str "s8"), ("name", .str "s8"),
     ("base_urls", .list []), ("discovery", .null)]),
   ("method", .str "GET"), ("endpoint", .str "https://example.test"),
   ("parser", .str "json"), ("response", .null), ("rate_limit", .null),
   ("retries", .null), ("scheduling", .null)]

/-- The request descriptor `expand` produces for `c8bEntry` (one header). -/
def c8bDesc : PyDict :=
  [("id", .str "c8.b"), ("name", .str "c8.b"),
   ("source", .dict [("id", .str "s8"), ("name", .str "s8"),
     ("base_urls", .list []), ("discovery", .null)]),
   ("method", .str "GET"), ("endpoint", .str "https://x"),
   ("parser", .str "json"), ("response", .null), ("rate_limit", .null),
   ("retries", .null), ("scheduling", .null),
   ("headers", .dict [("X-A", .str "1")])]

/-- Witness for C8 amended at two concrete entries: without headers the
field is absent; with a declared header it carries the merged mapping. -/
theorem C8_witness :
    List.lookup "headers" c8Desc = none ∧
    List.lookup "headers" c8bDesc = some (.dict [("X-A", .str "1")]) :=
  ⟨(C8_amended c8Entry [] c8Desc rfl).1 rfl,
   (C8_amended c8bEntry [] c8bDesc rfl).2
     (fun h => absurd (show ([("X-A", Value.str "1")] : PyDict) = [] from h)
       (by simp))⟩

end TwMarket
